import Mathlib

/-!
Verification of the medshare backend (src/app.py), a Flask service with two
image endpoints backed by a generative AI model.  The Python source is
shallowly embedded below: its pure string helpers become Lean functions on
`String`/`List Char`; the HTTP handlers become functions from the request
shape (presence of the multipart field names) and the outcomes of the
external effects (image decoding, the AI call, JSON parsing) to a response
value; machine-level details (actual HTTP, PIL, the Gemini client) are
abstracted as those outcome parameters.  Case mapping models Python's
`str.lower`/`str.upper`/`str.title` on the ASCII fragment the code
manipulates.
-/

/-! ## Definitions -/

/-! ### ASCII character machinery (Python `str.lower` / `str.upper` model) -/

/-- Nat-level model of ASCII lowercasing: `A`..`Z` (65..90) shift up by 32. -/
def lowerNat (n : Nat) : Nat := if 65 ≤ n ∧ n ≤ 90 then n + 32 else n

/-- Nat-level model of ASCII uppercasing: `a`..`z` (97..122) shift down by 32. -/
def upperNat (n : Nat) : Nat := if 97 ≤ n ∧ n ≤ 122 then n - 32 else n

/-- Nat-level model of the look-alike substitution `o` (111) to `0` (48),
`l` (108) to `1` (49). -/
def subNat (n : Nat) : Nat := if n = 111 then 48 else if n = 108 then 49 else n

/-- Python `str.lower` on one character (ASCII fragment). -/
def pyLower (c : Char) : Char :=
  if 65 ≤ c.toNat ∧ c.toNat ≤ 90 then Char.ofNat (c.toNat + 32) else c

/-- Python `str.upper` on one character (ASCII fragment). -/
def pyUpper (c : Char) : Char :=
  if 97 ≤ c.toNat ∧ c.toNat ≤ 122 then Char.ofNat (c.toNat - 32) else c

/-- The character substitution performed by
`.replace("o", "0").replace("l", "1")` in `clean_strength`. -/
def lookalikeSub (c : Char) : Char :=
  if c = 'o' then '0' else if c = 'l' then '1' else c

/-- The ASCII characters matched by Python's `\s` and stripped by `str.strip`. -/
def pyIsSpace (c : Char) : Bool :=
  c = ' ' || c = '\t' || c = '\n' || c = '\r' || c = '\x0b' || c = '\x0c'

/-- Python `str.strip()` on a character list: drop whitespace at both ends. -/
def pyStrip (cs : List Char) : List Char :=
  ((cs.dropWhile pyIsSpace).reverse.dropWhile pyIsSpace).reverse

/-- ASCII letter test, the `[a-zA-Z]` of the source's regexes. -/
def isAsciiAlpha (c : Char) : Bool :=
  (65 ≤ c.toNat && c.toNat ≤ 90) || (97 ≤ c.toNat && c.toNat ≤ 122)

/-! ### Text normalizers (src/app.py lines 77-89) -/

/-- Translation of `clean_text_value`: sentinel handling, removal of the
symbol characters of the regex class, then `strip()`. -/
def clean_text_value (text : String) : String :=
  if text = "" ∨ text = "Not Detected" then ""
  else String.mk (pyStrip (text.data.filter
    (fun c => decide (¬(c = '®' ∨ c = '™' ∨ c = '℞' ∨ c = '©' ∨ c = '*')))))

/-- Translation of `clean_date`: sentinel handling, then
`re.sub` with the class complement of digits and `/`, `.`, `-`,
i.e. keep exactly the characters of that class. -/
def clean_date (text : String) : String :=
  if text = "" ∨ text = "Not Detected" then ""
  else String.mk (text.data.filter
    (fun c => decide (('0' ≤ c ∧ c ≤ '9') ∨ c = '/' ∨ c = '.' ∨ c = '-')))

/-- The spec's description of what `clean_date` keeps: digits and the date
separators. -/
def keepDateChar (c : Char) : Bool := c.isDigit || c == '/' || c == '.' || c == '-'

/-- The staged pipeline of `clean_strength`'s main line:
`text.lower().replace(" ", "").replace("o", "0").replace("l", "1")` then
`.upper()`.  Single-character `str.replace` acts independently on each
character, so it is a per-character map, and removing `" "` is a filter. -/
def cleanStrengthChars (cs : List Char) : List Char :=
  (((cs.map pyLower).filter (fun c => decide (¬ c = ' '))).map lookalikeSub).map pyUpper

/-- Translation of `clean_strength`. -/
def clean_strength (text : String) : String :=
  if text = "" ∨ text = "Not Detected" then ""
  else String.mk (cleanStrengthChars text.data)

/-- One-pass form of the same pipeline, following the spec's reading:
lowercase each character, drop spaces, substitute look-alikes, uppercase. -/
def cleanStrengthFused : List Char → List Char
  | [] => []
  | c :: cs =>
    if pyLower c = ' ' then cleanStrengthFused cs
    else pyUpper (lookalikeSub (pyLower c)) :: cleanStrengthFused cs

/-! ### Term corrector (src/app.py lines 69-75) -/

/-- Python `str.title` helper: capitalize a letter that starts a run of
letters, lowercase the other letters (ASCII model). -/
def pyTitleAux : Bool → List Char → List Char
  | _, [] => []
  | prev, c :: cs =>
    if isAsciiAlpha c then
      (if prev then pyLower c else pyUpper c) :: pyTitleAux true cs
    else c :: pyTitleAux false cs

/-- Python `str.title` (ASCII model). -/
def pyTitle (s : String) : String := String.mk (pyTitleAux false s.data)

/-- Translation of `fix_spelling`.  The SymSpell index built at startup is
abstracted as `lookup`, returning the suggestion terms for a query in
SymSpell's order (best first); `sym_spell.lookup(clean, CLOSEST, 2)` becomes
`lookup clean`. -/
def fix_spelling (lookup : String → List String) (raw_name : String) : String :=
  if raw_name = "" ∨ raw_name.length < 3 then raw_name
  else
    match lookup (String.mk ((pyStrip (raw_name.data.filter
        (fun c => isAsciiAlpha c || pyIsSpace c))).map pyLower)) with
    | t :: _ => pyTitle t
    | [] => pyTitle raw_name

/-! ### Model selector (src/app.py lines 32-45) -/

/-- One entry of `genai.list_models()`. -/
structure GenModel where
  name : String
  supported_generation_methods : List String

/-- Substring containment, Python's `needle in hay` on strings. -/
def strContainsAux (needle : List Char) : List Char → Bool
  | [] => needle.isEmpty
  | c :: cs => needle.isPrefixOf (c :: cs) || strContainsAux needle cs

def strContains (hay needle : String) : Bool := strContainsAux needle.data hay.data

/-- The `for m in genai.list_models()` loop: the first model offering
`generateContent` whose name contains `flash` is taken (the `break`);
all other models are skipped. -/
def pickModel : List GenModel → Option String
  | [] => none
  | m :: ms =>
    if m.supported_generation_methods.contains "generateContent"
        && strContains m.name "flash"
    then some m.name
    else pickModel ms

/-- The predicate of the selection loop, for stating the first-match
property. -/
def modelWanted (m : GenModel) : Bool :=
  m.supported_generation_methods.contains "generateContent" && strContains m.name "flash"

/-- The whole `try/except` block around model selection: on an enumeration
error the `except` arm selects the literal fallback `gemini-1.5-flash`;
otherwise `if not active_model` (None or empty name) falls back to
`gemini-pro-vision`. -/
def selectModel (listing : Except Unit (List GenModel)) : String :=
  match listing with
  | Except.error _ => "gemini-1.5-flash"
  | Except.ok ms =>
    match pickModel ms with
    | some n => if n = "" then "gemini-pro-vision" else n
    | none => "gemini-pro-vision"

/-! ### JSON values and Python truthiness -/

/-- JSON values as produced by `json.loads`. -/
inductive Json where
  | null : Json
  | bool : Bool → Json
  | num : Int → Json
  | str : String → Json
  | arr : List Json → Json
  | obj : List (String × Json) → Json

/-- Python truthiness (`if not text`) of a JSON value. -/
def pyTruthy : Json → Bool
  | Json.null => false
  | Json.bool b => b
  | Json.num n => decide (¬ n = 0)
  | Json.str s => decide (¬ s = "")
  | Json.arr l => !l.isEmpty
  | Json.obj l => !l.isEmpty

/-- `data.get(k, dflt)` on a parsed JSON object. -/
def jget (kvs : List (String × Json)) (k : String) (dflt : Json) : Json :=
  match kvs.find? (fun p => p.1 == k) with
  | some p => p.2
  | none => dflt

/-- Lookup of a key inside a JSON object value (`none` on other values). -/
def getField (j : Json) (k : String) : Option Json :=
  match j with
  | Json.obj kvs => (kvs.find? (fun p => p.1 == k)).map (fun p => p.2)
  | _ => none

/-! ### Request handlers (src/app.py lines 101-168) -/

/-- Outcome of one request: HTTP status, JSON body, and whether the AI call
and the image decoding were reached. -/
structure HandlerResult where
  status : Nat
  body : Json
  aiCalled : Bool
  imageDecoded : Bool

/-- The 400 response `jsonify error: No image` shared by both routes. -/
def noImageResult : HandlerResult :=
  { status := 400, body := Json.obj [("error", Json.str "No image")],
    aiCalled := false, imageDecoded := false }

/-- `response.text.replace` of the two code-fence markers, then `.strip()`. -/
def stripFences (s : String) : String :=
  ((s.replace "```json" "").replace "```" "").trim

/-- A normalizer applied to `data.get(...)`: on a string it is the Python
function; a truthy non-string raises `TypeError` inside `re.sub` (surfacing
through the route's `except`); a falsy value returns the empty string at the
`if not text` guard. -/
def applyCleaner (f : String → String) : Json → Except String String
  | Json.str s => Except.ok (f s)
  | v => if pyTruthy v then Except.error "TypeError" else Except.ok ""

/-- Translation of `predict_prescription`.  `files` holds the multipart field
names of the request; `decodeResult` is the outcome of
`Image.open`/`exif_transpose`; `aiResult` the outcome of
`model.generate_content` (its `.text` on success, the exception text on
failure); `parse` the behaviour of `json.loads` (`none` when it raises). -/
def predict_prescription (files : List String) (decodeResult : Except String Unit)
    (aiResult : Except String String) (parse : String → Option Json) : HandlerResult :=
  if "image" ∉ files then noImageResult
  else
    match decodeResult with
    | Except.error e =>
      { status := 500, body := Json.obj [("error", Json.str e)],
        aiCalled := false, imageDecoded := true }
    | Except.ok _ =>
      match aiResult with
      | Except.error e =>
        { status := 500, body := Json.obj [("error", Json.str e)],
          aiCalled := true, imageDecoded := true }
      | Except.ok text =>
        let medicines_raw :=
          match parse (stripFences text) with
          | none => Json.arr []
          | some data =>
            match data with
            | Json.obj kvs => jget kvs "medicines" (Json.arr [])
            | _ => Json.arr []
        { status := 200,
          body := Json.obj [("status", Json.str "success"), ("medicines", medicines_raw)],
          aiCalled := true, imageDecoded := true }

/-- The `final_response` dictionary of `predict_box`, with the four
normalized fields and the backup keys, as an ordered association list.
`Except` carries a `TypeError` raised by a normalizer on a truthy
non-string value. -/
def boxFinalResponse (data : Json) : Except String (List (String × String)) :=
  match data with
  | Json.obj kvs =>
    match applyCleaner clean_text_value (jget kvs "medicineName" (Json.str "")) with
    | Except.error e => Except.error e
    | Except.ok mn =>
      match applyCleaner clean_text_value (jget kvs "strength" (Json.str "")) with
      | Except.error e => Except.error e
      | Except.ok st =>
        match applyCleaner clean_date (jget kvs "expiryDate" (Json.str "")) with
        | Except.error e => Except.error e
        | Except.ok ed =>
          match applyCleaner clean_date (jget kvs "manufacturingDate" (Json.str "")) with
          | Except.error e => Except.error e
          | Except.ok md =>
            Except.ok [("medicineName", mn), ("strength", st), ("expiryDate", ed),
              ("manufacturingDate", md), ("Medicine_Name", mn), ("Strength", st),
              ("EXP_Date", ed), ("MFG_Date", md)]
  | _ => Except.error "AttributeError"

/-- The dict comprehension `if v and v != ""` (string truthiness twice),
followed by `jsonify` turning the kept strings into JSON strings. -/
def boxFiltered (fr : List (String × String)) : List (String × Json) :=
  (fr.filter (fun p => decide (¬ p.2 = "") && decide (¬ p.2 = ""))).map
    (fun p => (p.1, Json.str p.2))

/-- The success body of `predict_box`: status plus the same filtered map
under both `fields` and `detections`. -/
def boxSuccessBody (fr : List (String × String)) : Json :=
  Json.obj [("status", Json.str "success"), ("fields", Json.obj (boxFiltered fr)),
    ("detections", Json.obj (boxFiltered fr))]

/-- Translation of `predict_box`, with the same conventions as
`predict_prescription`.  Here a `json.loads` failure has no inner guard and
surfaces as the route's 500. -/
def predict_box (files : List String) (decodeResult : Except String Unit)
    (aiResult : Except String String) (parse : String → Option Json) : HandlerResult :=
  if "image" ∉ files then noImageResult
  else
    match decodeResult with
    | Except.error e =>
      { status := 500, body := Json.obj [("error", Json.str e)],
        aiCalled := false, imageDecoded := true }
    | Except.ok _ =>
      match aiResult with
      | Except.error e =>
        { status := 500, body := Json.obj [("error", Json.str e)],
          aiCalled := true, imageDecoded := true }
      | Except.ok text =>
        match parse (stripFences text) with
        | none =>
          { status := 500, body := Json.obj [("error", Json.str "JSONDecodeError")],
            aiCalled := true, imageDecoded := true }
        | some data =>
          match boxFinalResponse data with
          | Except.error e =>
            { status := 500, body := Json.obj [("error", Json.str e)],
              aiCalled := true, imageDecoded := true }
          | Except.ok fr =>
            { status := 200, body := boxSuccessBody fr,
              aiCalled := true, imageDecoded := true }

/-- Field lookup inside the `fields` object of a response body. -/
def responseField (r : HandlerResult) (k : String) : Option Json :=
  match getField r.body "fields" with
  | some j => getField j k
  | none => none

/-! ### Concrete data for witnesses -/

/-- A concrete `json.loads` behaviour for witnesses: every text parses to a
fixed box object. -/
def witnessParse : String → Option Json :=
  fun _ => some (Json.obj [("medicineName", Json.str "Panadol"),
    ("strength", Json.str "500 mg"), ("expiryDate", Json.str "12/2025")])

/-- The parsed object which `witnessParse` always returns. -/
def witnessKvs : List (String × Json) :=
  [("medicineName", Json.str "Panadol"), ("strength", Json.str "500 mg"),
    ("expiryDate", Json.str "12/2025")]

/-- The `final_response` list arising from `witnessKvs`. -/
def witnessFr : List (String × String) :=
  [("medicineName", "Panadol"), ("strength", "500 mg"), ("expiryDate", "12/2025"),
    ("manufacturingDate", ""), ("Medicine_Name", "Panadol"), ("Strength", "500 mg"),
    ("EXP_Date", "12/2025"), ("MFG_Date", "")]

/-! ## Theorems -/

/-! ### Character-level lemmas -/

/-- Characters below the surrogate range are valid code points, and
`Char.ofNat` is then faithful on `toNat`. -/
theorem toNat_ofNat_of_lt (n : Nat) (h : n < 55296) : (Char.ofNat n).toNat = n := by
  have hv : n.isValidChar := Or.inl h
  rw [Char.ofNat, dif_pos hv]
  rfl

theorem char_toNat_injective {a b : Char} (h : a.toNat = b.toNat) : a = b :=
  Char.ext (UInt32.toNat.inj h)

theorem toNat_pyLower (c : Char) : (pyLower c).toNat = lowerNat c.toNat := by
  unfold pyLower lowerNat
  split
  · next h => exact toNat_ofNat_of_lt _ (by omega)
  · rfl

theorem toNat_pyUpper (c : Char) : (pyUpper c).toNat = upperNat c.toNat := by
  unfold pyUpper upperNat
  split
  · next h => exact toNat_ofNat_of_lt _ (by omega)
  · rfl

theorem toNat_lookalikeSub (c : Char) : (lookalikeSub c).toNat = subNat c.toNat := by
  unfold lookalikeSub subNat
  by_cases h1 : c = 'o'
  · subst h1; simp
  · have h1n : c.toNat ≠ 111 := fun h => h1 (char_toNat_injective h)
    by_cases h2 : c = 'l'
    · subst h2; simp
    · have h2n : c.toNat ≠ 108 := fun h => h2 (char_toNat_injective h)
      simp [h1, h2, h1n, h2n]

/-! ### Lemmas on the strength pipeline -/

theorem cleanStrengthChars_cons (c : Char) (cs : List Char) :
    cleanStrengthChars (c :: cs) =
      if pyLower c = ' ' then cleanStrengthChars cs
      else pyUpper (lookalikeSub (pyLower c)) :: cleanStrengthChars cs := by
  unfold cleanStrengthChars
  by_cases h : pyLower c = ' ' <;> simp [List.filter, h]

theorem cleanStrengthChars_eq_fused (cs : List Char) :
    cleanStrengthChars cs = cleanStrengthFused cs := by
  induction cs with
  | nil => rfl
  | cons c cs ih =>
    rw [cleanStrengthChars_cons, cleanStrengthFused]
    by_cases h : pyLower c = ' ' <;> simp [h, ih]

theorem subNat_cases (w : Nat) :
    subNat w = 48 ∧ w = 111 ∨ subNat w = 49 ∧ w = 108 ∨ subNat w = w ∧ w ≠ 111 ∧ w ≠ 108 := by
  unfold subNat
  split_ifs <;> omega

theorem upperNat_cases (w : Nat) :
    upperNat w = w - 32 ∧ 97 ≤ w ∧ w ≤ 122 ∨ upperNat w = w ∧ ¬(97 ≤ w ∧ w ≤ 122) := by
  unfold upperNat
  split_ifs <;> omega

theorem lowerNat_cases (w : Nat) :
    lowerNat w = w + 32 ∧ 65 ≤ w ∧ w ≤ 90 ∨ lowerNat w = w ∧ ¬(65 ≤ w ∧ w ≤ 90) := by
  unfold lowerNat
  split_ifs <;> omega

/-- Nat-level stability: a character produced by the strength pipeline is a
fixed point of the pipeline and is not a space.  The hypothesis `h2` holds of
every `lowerNat` output. -/
theorem natStable (w : Nat) (h1 : w ≠ 32) (h2 : ¬(65 ≤ w ∧ w ≤ 90)) :
    lowerNat (upperNat (subNat w)) ≠ 32 ∧
      upperNat (subNat (lowerNat (upperNat (subNat w)))) = upperNat (subNat w) := by
  obtain ⟨x, ex, hx⟩ : ∃ x, subNat w = x ∧ (x = 48 ∨ x = 49 ∨ x = w ∧ x ≠ 111 ∧ x ≠ 108) := by
    rcases subNat_cases w with ⟨e, h⟩ | ⟨e, h⟩ | ⟨e, h⟩ <;> exact ⟨_, e, by omega⟩
  rw [ex]
  obtain ⟨y, ey, hy⟩ : ∃ y, upperNat x = y ∧
      (y = x - 32 ∧ 97 ≤ x ∧ x ≤ 122 ∨ y = x ∧ ¬(97 ≤ x ∧ x ≤ 122)) := by
    rcases upperNat_cases x with ⟨e, h⟩ | ⟨e, h⟩ <;> exact ⟨_, e, by omega⟩
  rw [ey]
  obtain ⟨z, ez, hz⟩ : ∃ z, lowerNat y = z ∧
      (z = y + 32 ∧ 65 ≤ y ∧ y ≤ 90 ∨ z = y ∧ ¬(65 ≤ y ∧ y ≤ 90)) := by
    rcases lowerNat_cases y with ⟨e, h⟩ | ⟨e, h⟩ <;> exact ⟨_, e, by omega⟩
  rw [ez]
  obtain ⟨u, eu, hu⟩ : ∃ u, subNat z = u ∧
      (u = 48 ∧ z = 111 ∨ u = 49 ∧ z = 108 ∨ u = z ∧ z ≠ 111 ∧ z ≠ 108) := by
    rcases subNat_cases z with ⟨e, h⟩ | ⟨e, h⟩ | ⟨e, h⟩ <;> exact ⟨_, e, by omega⟩
  rw [eu]
  obtain ⟨v, ev, hv⟩ : ∃ v, upperNat u = v ∧
      (v = u - 32 ∧ 97 ≤ u ∧ u ≤ 122 ∨ v = u ∧ ¬(97 ≤ u ∧ u ≤ 122)) := by
    rcases upperNat_cases u with ⟨e, h⟩ | ⟨e, h⟩ <;> exact ⟨_, e, by omega⟩
  rw [ev]
  omega

theorem lowerNat_not_upper_range (a : Nat) : ¬(65 ≤ lowerNat a ∧ lowerNat a ≤ 90) := by
  unfold lowerNat
  split <;> omega

theorem pipeline_not_o (a : Nat) : upperNat (subNat (lowerNat a)) ≠ 111 := by
  unfold lowerNat upperNat subNat
  split_ifs <;> omega

theorem cleanStrengthChars_idem (cs : List Char) :
    cleanStrengthChars (cleanStrengthChars cs) = cleanStrengthChars cs := by
  induction cs with
  | nil => rfl
  | cons c cs ih =>
    rw [cleanStrengthChars_cons]
    by_cases h : pyLower c = ' '
    · simp [h, ih]
    · simp only [h, if_false]
      rw [cleanStrengthChars_cons]
      have hw : (pyLower c).toNat ≠ 32 := by
        intro hn
        exact h (char_toNat_injective hn)
      have hst := natStable (pyLower c).toNat hw
        (by rw [toNat_pyLower]; exact lowerNat_not_upper_range c.toNat)
      have hd : (pyLower (pyUpper (lookalikeSub (pyLower c)))).toNat =
          lowerNat (upperNat (subNat (pyLower c).toNat)) := by
        rw [toNat_pyLower, toNat_pyUpper, toNat_lookalikeSub]
      have hne : pyLower (pyUpper (lookalikeSub (pyLower c))) ≠ ' ' := by
        intro he
        have := congrArg Char.toNat he
        rw [hd] at this
        exact hst.1 this
      simp only [hne, if_false, ih]
      have hhead : pyUpper (lookalikeSub (pyLower (pyUpper (lookalikeSub (pyLower c))))) =
          pyUpper (lookalikeSub (pyLower c)) := by
        apply char_toNat_injective
        simp only [toNat_pyUpper, toNat_lookalikeSub]
        rw [hd]
        exact hst.2
      rw [hhead]

theorem cleanStrengthChars_no_o (cs : List Char) :
    ∀ d ∈ cleanStrengthChars cs, d.toNat ≠ 111 := by
  induction cs with
  | nil => intro d hd; cases hd
  | cons c cs ih =>
    rw [cleanStrengthChars_cons]
    by_cases h : pyLower c = ' '
    · simp only [h, if_true]; exact ih
    · simp only [h, if_false]
      intro d hd
      rcases List.mem_cons.mp hd with he | hm
      · subst he
        rw [toNat_pyUpper, toNat_lookalikeSub, toNat_pyLower]
        exact pipeline_not_o c.toNat
      · exact ih d hm

/-! ### Model selector lemmas -/

theorem pickModel_eq_find (ms : List GenModel) :
    pickModel ms = (ms.find? modelWanted).map GenModel.name := by
  induction ms with
  | nil => rfl
  | cons m ms ih =>
    unfold pickModel
    by_cases h : modelWanted m = true
    · rw [List.find?_cons_of_pos _ h]
      unfold modelWanted at h
      rw [if_pos h]
      rfl
    · rw [List.find?_cons_of_neg _ (by simpa using h)]
      unfold modelWanted at h
      rw [if_neg (by simpa using h)]
      exact ih

theorem strContains_flash_name_ne_empty (n : String) (h : strContains n "flash" = true) :
    n ≠ "" := by
  intro he
  subst he
  exact absurd h (by decide)

/-! ### Handler success-path lemmas -/

theorem predict_box_200 (files : List String) (dec : Except String Unit)
    (ai : Except String String) (parse : String → Option Json)
    (h : (predict_box files dec ai parse).status = 200) :
    ∃ fr, (predict_box files dec ai parse).body = boxSuccessBody fr ∧
      (predict_box files dec ai parse).status = 200 := by
  by_cases him : "image" ∉ files
  · simp [predict_box, him, noImageResult] at h
  · cases dec with
    | error e => simp [predict_box, him] at h
    | ok u =>
      cases ai with
      | error e => simp [predict_box, him] at h
      | ok text =>
        cases hp : parse (stripFences text) with
        | none => simp [predict_box, him, hp] at h
        | some data =>
          cases hb : boxFinalResponse data with
          | error e => simp [predict_box, him, hp, hb] at h
          | ok fr =>
            refine ⟨fr, ?_, h⟩
            simp [predict_box, him, hp, hb]

theorem boxFinalResponse_ok_shape (kvs : List (String × Json)) (fr : List (String × String))
    (hb : boxFinalResponse (Json.obj kvs) = Except.ok fr) :
    ∃ mn st ed md,
      applyCleaner clean_text_value (jget kvs "medicineName" (Json.str "")) = Except.ok mn ∧
      applyCleaner clean_text_value (jget kvs "strength" (Json.str "")) = Except.ok st ∧
      applyCleaner clean_date (jget kvs "expiryDate" (Json.str "")) = Except.ok ed ∧
      applyCleaner clean_date (jget kvs "manufacturingDate" (Json.str "")) = Except.ok md ∧
      fr = [("medicineName", mn), ("strength", st), ("expiryDate", ed),
        ("manufacturingDate", md), ("Medicine_Name", mn), ("Strength", st),
        ("EXP_Date", ed), ("MFG_Date", md)] := by
  cases h1 : applyCleaner clean_text_value (jget kvs "medicineName" (Json.str "")) with
  | error e => simp [boxFinalResponse, h1] at hb
  | ok mn =>
    cases h2 : applyCleaner clean_text_value (jget kvs "strength" (Json.str "")) with
    | error e => simp [boxFinalResponse, h1, h2] at hb
    | ok st =>
      cases h3 : applyCleaner clean_date (jget kvs "expiryDate" (Json.str "")) with
      | error e => simp [boxFinalResponse, h1, h2, h3] at hb
      | ok ed =>
        cases h4 : applyCleaner clean_date (jget kvs "manufacturingDate" (Json.str "")) with
        | error e => simp [boxFinalResponse, h1, h2, h3, h4] at hb
        | ok md =>
          simp only [boxFinalResponse, h1, h2, h3, h4] at hb
          injection hb with hfr
          exact ⟨mn, st, ed, md, rfl, rfl, rfl, rfl, hfr.symm⟩

/-- Bridging the source regex class of `clean_date` with the spec's
digit-or-separator predicate. -/
theorem clean_date_pred_iff (c : Char) :
    (('0' ≤ c ∧ c ≤ '9') ∨ c = '/' ∨ c = '.' ∨ c = '-') ↔ keepDateChar c = true := by
  unfold keepDateChar
  simp only [Char.isDigit, Bool.or_eq_true, Bool.and_eq_true, decide_eq_true_eq, beq_iff_eq,
    ge_iff_le, Char.le_def]
  have h0 : '0'.val = 48 := rfl
  have h9 : '9'.val = 57 := rfl
  rw [h0, h9]
  tauto

/-! ### Claim theorems -/

/-- C1: a POST to either route whose multipart form has no field named
`image` yields status 400 with body exactly the one-entry object binding
`error` to `No image`, and neither the AI call nor the image decoding is
reached — whatever the decode outcome, AI outcome and JSON parser would have
been. -/
theorem missing_image_yields_400 (files : List String) (h : "image" ∉ files)
    (dec dec' : Except String Unit) (ai ai' : Except String String)
    (parse parse' : String → Option Json) :
    predict_prescription files dec ai parse = noImageResult ∧
      predict_box files dec' ai' parse' = noImageResult ∧
      noImageResult.status = 400 ∧
      noImageResult.body = Json.obj [("error", Json.str "No image")] ∧
      noImageResult.aiCalled = false ∧ noImageResult.imageDecoded = false := by
  refine ⟨?_, ?_, rfl, rfl, rfl, rfl⟩
  · unfold predict_prescription
    rw [if_pos h]
  · unfold predict_box
    rw [if_pos h]

/-- C1 witness at the empty request. -/
theorem missing_image_yields_400_witness :
    predict_prescription [] (Except.ok ()) (Except.ok "x") (fun _ => none) = noImageResult ∧
      predict_box [] (Except.ok ()) (Except.ok "x") (fun _ => none) = noImageResult := by
  have h := missing_image_yields_400 [] (by decide) (Except.ok ()) (Except.ok ())
    (Except.ok "x") (Except.ok "x") (fun _ => none) (fun _ => none)
  exact ⟨h.1, h.2.1⟩

/-- C3 counterexample: the two failure cases of the model selector do not
use the same fallback identifier — an enumeration with no matching model
selects `gemini-pro-vision` while a failing enumeration selects
`gemini-1.5-flash`. -/
theorem selectModel_fallbacks_differ :
    selectModel (Except.ok []) = "gemini-pro-vision" ∧
      selectModel (Except.error ()) = "gemini-1.5-flash" ∧
      ("gemini-pro-vision" : String) ≠ "gemini-1.5-flash" :=
  ⟨rfl, rfl, by decide⟩

/-- C3 amended: on a successful enumeration the selector takes the first
model supporting `generateContent` whose name contains `flash`, falling back
to `gemini-pro-vision` when no model matches; when the enumeration raises,
the selector uses the distinct fallback `gemini-1.5-flash`. -/
theorem selectModel_correct :
    (∀ ms : List GenModel,
      selectModel (Except.ok ms) =
        match ms.find? modelWanted with
        | some m => m.name
        | none => "gemini-pro-vision")
    ∧ selectModel (Except.error ()) = "gemini-1.5-flash" := by
  refine ⟨?_, rfl⟩
  intro ms
  simp only [selectModel]
  rw [pickModel_eq_find]
  cases hf : ms.find? modelWanted with
  | none => rfl
  | some m =>
    simp only [Option.map_some']
    have hp := List.find?_some hf
    unfold modelWanted at hp
    have hne : m.name ≠ "" :=
      strContains_flash_name_ne_empty m.name (Bool.and_elim_right hp)
    rw [if_neg hne]

/-- C4: on the prescription route, when the code-fence-stripped AI text does
not parse as JSON, the route still answers 200 with a `success` status and
an empty `medicines` array. -/
theorem prescription_parse_failure_returns_empty (files : List String)
    (h : "image" ∈ files) (text : String) (parse : String → Option Json)
    (hp : parse (stripFences text) = none) :
    predict_prescription files (Except.ok ()) (Except.ok text) parse =
      { status := 200,
        body := Json.obj [("status", Json.str "success"), ("medicines", Json.arr [])],
        aiCalled := true, imageDecoded := true } := by
  simp [predict_prescription, h, hp]

/-- C4 witness: a parser that always fails. -/
theorem prescription_parse_failure_returns_empty_witness :
    predict_prescription ["image"] (Except.ok ()) (Except.ok "x") (fun _ => none) =
      { status := 200,
        body := Json.obj [("status", Json.str "success"), ("medicines", Json.arr [])],
        aiCalled := true, imageDecoded := true } :=
  prescription_parse_failure_returns_empty ["image"] (by decide) "x" (fun _ => none) rfl

/-- C6: `clean_strength` maps the empty string and the sentinel to the empty
string; otherwise it lowercases, removes spaces, substitutes `o` by `0` and
`l` by `1`, and uppercases (the fused per-character pipeline); in particular
it sends `500 MG` and `5O0mg` to `500MG`. -/
theorem clean_strength_correct :
    (∀ s : String, s = "" ∨ s = "Not Detected" → clean_strength s = "")
    ∧ (∀ s : String, ¬(s = "" ∨ s = "Not Detected") →
        clean_strength s = String.mk (cleanStrengthFused s.data))
    ∧ clean_strength "500 MG" = "500MG"
    ∧ clean_strength "5O0mg" = "500MG" := by
  refine ⟨?_, ?_, by decide, by decide⟩
  · intro s hs
    unfold clean_strength
    rw [if_pos hs]
  · intro s hs
    unfold clean_strength
    rw [if_neg hs, cleanStrengthChars_eq_fused]

/-- C6 witness: the sentinel, a non-sentinel input, and the two examples. -/
theorem clean_strength_correct_witness :
    clean_strength "Not Detected" = "" ∧
      clean_strength "5O0mg" = String.mk (cleanStrengthFused "5O0mg".data) ∧
      clean_strength "500 MG" = "500MG" :=
  ⟨clean_strength_correct.1 "Not Detected" (Or.inr rfl),
    clean_strength_correct.2.1 "5O0mg" (by decide),
    clean_strength_correct.2.2.1⟩

/-- C7: `clean_strength` is idempotent. -/
theorem clean_strength_idempotent (s : String) :
    clean_strength (clean_strength s) = clean_strength s := by
  by_cases hs : s = "" ∨ s = "Not Detected"
  · rw [show clean_strength s = "" from by unfold clean_strength; rw [if_pos hs]]
    unfold clean_strength
    rw [if_pos (Or.inl rfl)]
  · rw [show clean_strength s = String.mk (cleanStrengthChars s.data) from by
      unfold clean_strength; rw [if_neg hs]]
    by_cases h0 : String.mk (cleanStrengthChars s.data) = ""
    · unfold clean_strength
      rw [if_pos (Or.inl h0), h0]
    · have hnd : String.mk (cleanStrengthChars s.data) ≠ "Not Detected" := by
        intro he
        have hdata : cleanStrengthChars s.data = "Not Detected".data :=
          congrArg String.data he
        have ho : 'o' ∈ cleanStrengthChars s.data := by
          rw [hdata]; decide
        exact cleanStrengthChars_no_o s.data 'o' ho (by decide)
      unfold clean_strength
      rw [if_neg (by simp [h0, hnd])]
      show String.mk (cleanStrengthChars (cleanStrengthChars s.data)) = _
      rw [cleanStrengthChars_idem]

/-- C8: `clean_date` maps the empty string and the sentinel to the empty
string; otherwise it keeps exactly the digits and the separators `/`, `.`,
`-` of its input, in order; in particular `Exp: 12/2025!!` becomes
`12/2025`. -/
theorem clean_date_correct :
    (∀ s : String, s = "" ∨ s = "Not Detected" → clean_date s = "")
    ∧ (∀ s : String, ¬(s = "" ∨ s = "Not Detected") →
        clean_date s = String.mk (s.data.filter keepDateChar))
    ∧ clean_date "Exp: 12/2025!!" = "12/2025" := by
  refine ⟨?_, ?_, by decide⟩
  · intro s hs
    unfold clean_date
    rw [if_pos hs]
  · intro s hs
    unfold clean_date
    rw [if_neg hs]
    congr 1
    apply List.filter_congr
    intro c _
    by_cases hb : keepDateChar c = true
    · rw [hb]
      exact decide_eq_true ((clean_date_pred_iff c).mpr hb)
    · rw [Bool.not_eq_true] at hb
      rw [hb]
      exact decide_eq_false (fun hp => absurd ((clean_date_pred_iff c).mp hp) (by simp [hb]))

/-- C8 witness: the sentinel, a non-sentinel input, and the example. -/
theorem clean_date_correct_witness :
    clean_date "Not Detected" = "" ∧
      clean_date "Exp: 12/2025!!" = String.mk ("Exp: 12/2025!!".data.filter keepDateChar) ∧
      clean_date "Exp: 12/2025!!" = "12/2025" :=
  ⟨clean_date_correct.1 "Not Detected" (Or.inr rfl),
    clean_date_correct.2.1 "Exp: 12/2025!!" (by decide),
    clean_date_correct.2.2⟩

/-! ### More handler lemmas -/

theorem predict_box_success_eq (files : List String) (him : "image" ∈ files)
    (text : String) (parse : String → Option Json) (data : Json)
    (fr : List (String × String)) (hp : parse (stripFences text) = some data)
    (hb : boxFinalResponse data = Except.ok fr) :
    predict_box files (Except.ok ()) (Except.ok text) parse =
      { status := 200, body := boxSuccessBody fr,
        aiCalled := true, imageDecoded := true } := by
  simp [predict_box, him, hp, hb]

theorem getField_boxSuccessBody (fr : List (String × String)) :
    getField (boxSuccessBody fr) "fields" = some (Json.obj (boxFiltered fr)) ∧
      getField (boxSuccessBody fr) "detections" = some (Json.obj (boxFiltered fr)) :=
  ⟨rfl, rfl⟩

theorem boxFiltered_find_strength (mn st ed md : String) :
    getField (Json.obj (boxFiltered [("medicineName", mn), ("strength", st),
      ("expiryDate", ed), ("manufacturingDate", md), ("Medicine_Name", mn),
      ("Strength", st), ("EXP_Date", ed), ("MFG_Date", md)])) "strength" =
      (if st = "" then none else some (Json.str st)) := by
  by_cases h1 : mn = "" <;> by_cases h2 : st = "" <;> by_cases h3 : ed = "" <;>
    by_cases h4 : md = "" <;>
    simp [boxFiltered, getField, List.filter, List.find?, h1, h2, h3, h4]

theorem boxFiltered_find_medicineName (mn st ed md : String) :
    getField (Json.obj (boxFiltered [("medicineName", mn), ("strength", st),
      ("expiryDate", ed), ("manufacturingDate", md), ("Medicine_Name", mn),
      ("Strength", st), ("EXP_Date", ed), ("MFG_Date", md)])) "medicineName" =
      (if mn = "" then none else some (Json.str mn)) := by
  by_cases h1 : mn = "" <;> by_cases h2 : st = "" <;> by_cases h3 : ed = "" <;>
    by_cases h4 : md = "" <;>
    simp [boxFiltered, getField, List.filter, List.find?, h1, h2, h3, h4]

theorem boxFiltered_no_empty (fr : List (String × String)) :
    ∀ k v, (k, v) ∈ boxFiltered fr → v ≠ Json.str "" := by
  intro k v hkv hveq
  unfold boxFiltered at hkv
  rcases List.mem_map.mp hkv with ⟨p, hp, he⟩
  have hcond := List.of_mem_filter hp
  have hv : v = Json.str p.2 := (Prod.mk.injEq _ _ _ _ ▸ he).2.symm
  rw [hveq] at hv
  have : p.2 = "" := by
    injection hv.symm
  simp [this] at hcond

/-- C2 counterexample: with the fuzzy index empty, `fix_spelling` would turn
the raw name `paracetamol` into `Paracetamol`, but the box route returns the
field value `paracetamol` untouched: the box handler does not apply the term
corrector to its extracted fields. -/
theorem box_skips_term_corrector_cex :
    responseField (predict_box ["image"] (Except.ok ()) (Except.ok "r")
        (fun _ => some (Json.obj [("medicineName", Json.str "paracetamol")]))) "medicineName"
      = some (Json.str "paracetamol")
    ∧ fix_spelling (fun _ => []) "paracetamol" = "Paracetamol"
    ∧ ("paracetamol" : String) ≠ "Paracetamol" :=
  ⟨rfl, by decide, by decide⟩

/-- C2 amended: both routes bypass the term corrector — the prescription
handler returns the parsed medicine list unmodified, and the box handler
produces its field values with `clean_text_value`/`clean_date` alone, never
invoking `fix_spelling`. -/
theorem handlers_bypass_term_corrector
    (files : List String) (him : "image" ∈ files) (text : String)
    (parse : String → Option Json) (kvs : List (String × Json))
    (fr : List (String × String)) (s : String)
    (hp : parse (stripFences text) = some (Json.obj kvs))
    (hb : boxFinalResponse (Json.obj kvs) = Except.ok fr)
    (hs : jget kvs "medicineName" (Json.str "") = Json.str s) :
    predict_prescription files (Except.ok ()) (Except.ok text) parse =
      { status := 200,
        body := Json.obj [("status", Json.str "success"),
          ("medicines", jget kvs "medicines" (Json.arr []))],
        aiCalled := true, imageDecoded := true }
    ∧ List.lookup "medicineName" fr = some (clean_text_value s)
    ∧ responseField (predict_box files (Except.ok ()) (Except.ok text) parse) "medicineName"
        = (if clean_text_value s = "" then none
           else some (Json.str (clean_text_value s))) := by
  obtain ⟨mn, st, ed, md, h1, h2, h3, h4, hfr⟩ := boxFinalResponse_ok_shape kvs fr hb
  have hmn : mn = clean_text_value s := by
    rw [hs] at h1
    have hr : applyCleaner clean_text_value (Json.str s) =
        Except.ok (clean_text_value s) := rfl
    rw [hr] at h1
    injection h1 with h
    exact h.symm
  subst hfr
  subst hmn
  refine ⟨?_, ?_, ?_⟩
  · simp [predict_prescription, him, hp]
  · simp [List.lookup]
  · rw [predict_box_success_eq files him text parse _ _ hp hb]
    show getField (Json.obj (boxFiltered _)) "medicineName" = _
    exact boxFiltered_find_medicineName _ _ _ _

/-- C2 amended witness, on the concrete parse of `witnessParse`. -/
theorem handlers_bypass_term_corrector_witness :
    List.lookup "medicineName" witnessFr = some (clean_text_value "Panadol") :=
  (handlers_bypass_term_corrector ["image"] (by decide) "t" witnessParse witnessKvs
    witnessFr "Panadol" rfl rfl rfl).2.1

/-- C5: neither handler uses `clean_strength`; the box handler normalizes the
`strength` field with `clean_text_value` only, so the returned strength is
`clean_text_value` of the raw strength — in particular a raw `5O0mg` stays
`5O0mg`, while `clean_strength` would have produced `500MG`. -/
theorem box_strength_uses_clean_value_not_clean_strength
    (files : List String) (him : "image" ∈ files) (text : String)
    (parse : String → Option Json) (kvs : List (String × Json))
    (fr : List (String × String)) (s : String)
    (hp : parse (stripFences text) = some (Json.obj kvs))
    (hb : boxFinalResponse (Json.obj kvs) = Except.ok fr)
    (hs : jget kvs "strength" (Json.str "") = Json.str s) :
    List.lookup "strength" fr = some (clean_text_value s)
    ∧ responseField (predict_box files (Except.ok ()) (Except.ok text) parse) "strength"
        = (if clean_text_value s = "" then none else some (Json.str (clean_text_value s)))
    ∧ clean_text_value "5O0mg" = "5O0mg"
    ∧ clean_strength "5O0mg" = "500MG" := by
  obtain ⟨mn, st, ed, md, h1, h2, h3, h4, hfr⟩ := boxFinalResponse_ok_shape kvs fr hb
  have hst : st = clean_text_value s := by
    rw [hs] at h2
    have hr : applyCleaner clean_text_value (Json.str s) =
        Except.ok (clean_text_value s) := rfl
    rw [hr] at h2
    injection h2 with h
    exact h.symm
  subst hfr
  subst hst
  refine ⟨?_, ?_, by decide, by decide⟩
  · simp [List.lookup]
  · rw [predict_box_success_eq files him text parse _ _ hp hb]
    show getField (Json.obj (boxFiltered _)) "strength" = _
    exact boxFiltered_find_strength _ _ _ _

/-- C5 witness, on the concrete parse of `witnessParse`. -/
theorem box_strength_uses_clean_value_not_clean_strength_witness :
    List.lookup "strength" witnessFr = some (clean_text_value "500 mg") :=
  (box_strength_uses_clean_value_not_clean_strength ["image"] (by decide) "t" witnessParse
    witnessKvs witnessFr "500 mg" rfl rfl rfl).1

/-- C9: a successful box response binds no key of its `fields` object to an
empty value: fields whose normalized value is empty were dropped before the
response was built. -/
theorem box_success_no_empty_values (files : List String) (dec : Except String Unit)
    (ai : Except String String) (parse : String → Option Json)
    (m : List (String × Json))
    (h200 : (predict_box files dec ai parse).status = 200)
    (hf : getField (predict_box files dec ai parse).body "fields" = some (Json.obj m)) :
    ∀ k v, (k, v) ∈ m → v ≠ Json.str "" := by
  obtain ⟨fr, hbody, _⟩ := predict_box_200 files dec ai parse h200
  rw [hbody, (getField_boxSuccessBody fr).1] at hf
  injection hf with h
  injection h with h2
  intro k v hkv
  rw [← h2] at hkv
  exact boxFiltered_no_empty fr k v hkv

/-- C9 witness, on the concrete parse of `witnessParse`. -/
theorem box_success_no_empty_values_witness :
    Json.str "Panadol" ≠ Json.str "" :=
  box_success_no_empty_values ["image"] (Except.ok ()) (Except.ok "t") witnessParse
    (boxFiltered witnessFr) rfl rfl "medicineName" (Json.str "Panadol") (List.Mem.head _)

/-- C10: a successful box response carries the same map under `fields` and
under `detections`. -/
theorem box_fields_eq_detections (files : List String) (dec : Except String Unit)
    (ai : Except String String) (parse : String → Option Json)
    (h200 : (predict_box files dec ai parse).status = 200) :
    getField (predict_box files dec ai parse).body "fields" =
      getField (predict_box files dec ai parse).body "detections" := by
  obtain ⟨fr, hbody, _⟩ := predict_box_200 files dec ai parse h200
  rw [hbody, (getField_boxSuccessBody fr).1, (getField_boxSuccessBody fr).2]

/-- C10 witness, on the concrete parse of `witnessParse`. -/
theorem box_fields_eq_detections_witness :
    getField (predict_box ["image"] (Except.ok ()) (Except.ok "t") witnessParse).body "fields" =
      getField (predict_box ["image"] (Except.ok ()) (Except.ok "t") witnessParse).body
        "detections" :=
  box_fields_eq_detections ["image"] (Except.ok ()) (Except.ok "t") witnessParse rfl
